import Mathlib

/-!
Shallow embedding of `src/binstar_client/__init__.py` (the `Binstar` client of
anaconda-client): the data model, `_check_response`, the upload pipeline
(stage POST, hashing, storage POST, commit POST), `download`, and the delete
operations.  Python byte strings are modelled as `List Nat`, Python `str` as
`String`, Python dicts as association lists (insertion ordered, unique keys),
HTTP effects as an explicit trace of `Action`s, and raised exceptions as the
`Except` error branch.
-/

set_option autoImplicit false

namespace BinstarClient

/-- The error classes of the `errors` module used by `__init__.py`
(`BinstarError` is the generic base; the others are the status-classified
subclasses chosen in `_check_response`). -/
inductive ErrCls where
  | BinstarError
  | Unauthorized
  | NotFound
  | Conflict
  | ServerError
deriving DecidableEq, Repr

/-- A raised Python exception: either a typed API error carrying
(class, message, status code), a built-in `TypeError`, an
`UnboundLocalError` for reading a never-assigned local, a `KeyError`, or a
JSON decode failure from `res.json()` on a non-JSON body. -/
inductive Exc where
  | api (cls : ErrCls) (msg : String) (status : Nat)
  | typeError (msg : String)
  | unboundLocal (name : String)
  | keyError (key : String)
  | jsonDecode
deriving DecidableEq, Repr

/-- An HTTP response as the client observes it: status code, the request
method and URL that produced it (`res.request.method` / `res.request.url`),
the body parsed as a JSON object when it parses (`none` models a body that
`res.json()` rejects; JSON object fields are modelled as string-valued),
the response headers, and the raw text. -/
structure Response where
  status_code : Nat
  method : String
  url : String
  body : Option (List (String × String))
  headers : List (String × String)
  text : String
deriving DecidableEq, Repr

/-- First-match association-list lookup, the model of Python dict
subscripting / `.get` on the parsed JSON objects and header maps. -/
def getVal {α : Type} : List (String × α) → String → Option α
  | [], _ => none
  | (k, v) :: rest, key => if k = key then some v else getVal rest key

/-- Lines 150-158: classify a disallowed status code into an error class:
401 `Unauthorized`, 404 `NotFound`, 409 `Conflict`, `>= 500` `ServerError`,
anything else the generic `BinstarError`. -/
def errCls_of_status (status : Nat) : ErrCls :=
  if status = 401 then ErrCls.Unauthorized
  else if status = 404 then ErrCls.NotFound
  else if status = 409 then ErrCls.Conflict
  else if 500 ≤ status then ErrCls.ServerError
  else ErrCls.BinstarError

/-- Lines 141-142: the synthesized error message
`"%s: %s ([%s] %s -> %s)" % (short, long, method, url, status_code)`.
`codes` models the `STATUS_CODES` table of `utils.http_codes` (imported by
`__init__.py` but not under src/), with the default `("?", "Undefined
error")` of line 141 applied to missing entries. -/
def synth_message (codes : Nat → Option (String × String)) (res : Response) : String :=
  let sl := (codes res.status_code).getD ("?", "Undefined error")
  sl.1 ++ ": " ++ sl.2 ++ " ([" ++ res.method ++ "] " ++ res.url ++ " -> "
    ++ toString res.status_code ++ ")"

/-- Lines 141-148: the message of the raised error: the `error` field of the
JSON body when the body parses as JSON and the field is present
(`data.get("error", msg)`), else the synthesized message. -/
def response_error_message (codes : Nat → Option (String × String)) (res : Response) : String :=
  match res.body with
  | none => synth_message codes res
  | some fields => (getVal fields "error").getD (synth_message codes res)

/-- Lines 132-160, `Binstar._check_response(res, allowed)`: `none` when the
status is allowed, otherwise the single typed error that the method raises.
The API-version comparison of lines 133-137 only emits a non-fatal warning
and is not modelled. -/
def check_response (codes : Nat → Option (String × String)) (res : Response)
    (allowed : List Nat) : Option Exc :=
  if res.status_code ∈ allowed then none
  else some (Exc.api (errCls_of_status res.status_code)
    (response_error_message codes res) res.status_code)

/-- Lines 49-51 of `Binstar.__init__`: strip one trailing slash from the
domain.  Python `domain.endswith("/")` is last-character equality and
`domain[:-1]` drops the last character. -/
def init_domain (domain : String) : String :=
  if domain.data.getLast? = some (Char.ofNat 47) then String.mk domain.data.dropLast
  else domain

/-- The client state the modelled methods depend on: the stored domain. -/
structure Binstar where
  domain : String
deriving DecidableEq, Repr

/-- `Binstar.__init__(domain=...)`: stores the slash-stripped domain. -/
def Binstar.ofDomain (domain : String) : Binstar :=
  Binstar.mk (init_domain domain)

/-- A Python file-like object: its byte content and current position
(`tell`/`seek` act on `pos`). -/
structure FileObj where
  content : List Nat
  pos : Nat
deriving DecidableEq, Repr

/-- A value stored in the `form_data` dict: the stage response supplies
strings; line 417 stores the integer `size` under `Content-Length`. -/
inductive FormVal where
  | s (v : String)
  | n (v : Nat)
deriving DecidableEq, Repr

/-- Python dict assignment `d[key] = v` on the association-list model:
replace the binding in place when the key is present, append it otherwise
(insertion order, as Python dicts preserve it). -/
def setKey : List (String × FormVal) → String → FormVal → List (String × FormVal)
  | [], key, v => [(key, v)]
  | (k, w) :: rest, key, v =>
      if k = key then (key, v) :: rest else (k, w) :: setKey rest key v

/-- The JSON payload of the stage POST (line 398). -/
structure StagePayload where
  distribution_type : String
  description : String
  attrs : List (String × String)
  dependencies : Option (List String)
  channels : List String
deriving DecidableEq, Repr

/-- An HTTP side effect performed by a client method, in order. -/
inductive Action where
  | stagePost (url : String) (payload : StagePayload)
  | storagePost (url : String) (form_data : List (String × FormVal)) (filename : String)
  | commitPost (url : String) (dist_id : String)
  | deleteReq (url : String)
  | getReq (url : String) (headers : List (String × String)) (allow_redirects : Bool)
  | streamGet (url : String)
deriving DecidableEq, Repr

/-- The Python value passed as the `attrs` argument of `upload`: `None`, a
dict, or any other object (line 395 only distinguishes these three). -/
inductive AttrsArg where
  | pynone
  | pydict (fields : List (String × String))
  | other (repr : String)
deriving DecidableEq, Repr

/-- The successfully parsed stage-response JSON object, with the three
fields `upload` reads (lines 406-407, 432): `post_url`, `form_data`,
`dist_id`. -/
structure StageObj where
  post_url : String
  form_data : List (String × FormVal)
  dist_id : String
deriving DecidableEq, Repr

/-- The responses the network returns to one `upload` call, plus the digest
functions: `codes` is the `STATUS_CODES` table, `stageRes`/`commitRes` are
the responses of the two `self.session.post` calls, `stageObj` the parsed
stage body used on the success path, `storageStatus`/`storageText` the
status and text of the `requests.post(s3url, ...)` call, and
`hexFn`/`b64Fn` the hex and base64 digests of a byte string (the MD5
primitive itself is an external collaborator). -/
structure UploadEnv where
  codes : Nat → Option (String × String)
  stageRes : Response
  stageObj : StageObj
  storageStatus : Nat
  storageText : String
  commitRes : Response
  hexFn : List Nat → String
  b64Fn : List Nat → String

/-- Modelled from the spec: `utils.compute_hash` is imported by
`__init__.py` but its definition is not under src/.  Per spec section 4.1
(HashComputer) it consumes the remaining stream once and returns
`(hex_digest, base64_digest, total_byte_count)`; a caller-supplied size is
trusted as-is. -/
def compute_hash (hexFn b64Fn : List Nat → String) (fd : FileObj) (size : Option Nat) :
    String × String × Nat :=
  let remaining := fd.content.drop fd.pos
  (hexFn remaining, b64Fn remaining, size.getD remaining.length)

/-- The arguments of `Binstar.upload` (the progress callback is consumed
only by the multipart encoder and has no bearing on the modelled
behaviour). -/
structure UploadArgs where
  login : String
  package_name : String
  release : String
  basename : String
  fd : FileObj
  distribution_type : String
  description : String
  md5 : Option String
  size : Option Nat
  dependencies : Option (List String)
  attrs : AttrsArg
  channels : List String

/-- Lines 409-418, the hashing step of `upload`, returning the pair
`(b64md5, size)` that lines 417-418 store into the form data.
When `md5 is None` (line 409) the stream is hashed via `compute_hash`.
When `md5` is supplied, line 411-415 at most measure the remaining size
with `tell`/`seek` (restoring the position), and the local `b64md5` is
never assigned in this branch, so the read of `b64md5` at line 418 raises
`UnboundLocalError` (line 417 has stored `Content-Length` by then, but the
dict is request-local and the exception aborts the call, so the partial
mutation is unobservable). -/
def hash_phase (env : UploadEnv) (a : UploadArgs) : Except Exc (String × Nat) :=
  match a.md5 with
  | none =>
      let r := compute_hash env.hexFn env.b64Fn a.fd a.size
      Except.ok (r.2.1, r.2.2)
  | some _ => Except.error (Exc.unboundLocal "b64md5")

/-- Line 393-396: `attrs` defaulting and type check. -/
def check_attrs : AttrsArg → Except Exc (List (String × String))
  | AttrsArg.pynone => Except.ok []
  | AttrsArg.pydict d => Except.ok d
  | AttrsArg.other _ => Except.error (Exc.typeError "argument attrs must be a dictionary")

/-- Whether `check_attrs` succeeds. -/
def attrsOk : AttrsArg → Bool
  | AttrsArg.other _ => false
  | _ => true

/-- Lines 378-437, `Binstar.upload`: the trace of HTTP effects performed,
and either the raised exception or the parsed JSON body of the commit
response.  Phases in source order: build the stage URL (392), validate
`attrs` (393-396), POST the stage payload and check the response against
the default allowed `[200]` (398-404), read `post_url`/`form_data` from the
body (406-407), hash or measure (409-418 via `hash_phase`), store
`Content-Length` and `Content-MD5` into the form data (417-418), POST the
multipart body to the storage URL (420-423), require status 201 exactly
(425-429), then POST `dist_id` to the commit URL and check it (431-435),
returning `res.json()` (437). -/
def upload (client : Binstar) (env : UploadEnv) (a : UploadArgs) :
    List Action × Except Exc (List (String × String)) :=
  let url := client.domain ++ "/stage/" ++ a.login ++ "/" ++ a.package_name ++ "/"
    ++ a.release ++ "/" ++ a.basename
  match check_attrs a.attrs with
  | Except.error e => ([], Except.error e)
  | Except.ok attrs =>
    let payload := StagePayload.mk a.distribution_type a.description attrs
      a.dependencies a.channels
    let trace1 := [Action.stagePost url payload]
    match check_response env.codes env.stageRes [200] with
    | some e => (trace1, Except.error e)
    | none =>
      let s3url := env.stageObj.post_url
      let s3data := env.stageObj.form_data
      match hash_phase env a with
      | Except.error e => (trace1, Except.error e)
      | Except.ok (b64md5, size) =>
        let s3data2 := setKey (setKey s3data "Content-Length" (FormVal.n size))
          "Content-MD5" (FormVal.s b64md5)
        let trace2 := trace1 ++ [Action.storagePost s3url s3data2 a.basename]
        if env.storageStatus ≠ 201 then
          (trace2, Except.error (Exc.api ErrCls.BinstarError "Error uploading package"
            env.storageStatus))
        else
          let curl := client.domain ++ "/commit/" ++ a.login ++ "/" ++ a.package_name
            ++ "/" ++ a.release ++ "/" ++ a.basename
          let trace3 := trace2 ++ [Action.commitPost curl env.stageObj.dist_id]
          match check_response env.codes env.commitRes [200] with
          | some e => (trace3, Except.error e)
          | none =>
            match env.commitRes.body with
            | some b => (trace3, Except.ok b)
            | none => (trace3, Except.error Exc.jsonDecode)

/-- The environment of a single-request method: the `STATUS_CODES` table
and the response the network returns. -/
structure ReqEnv where
  codes : Nat → Option (String × String)
  res : Response

/-- The streaming response handle returned by
`requests.get(location, stream=True)` at line 374, identified by the URL it
streams from. -/
structure StreamHandle where
  url : String
deriving DecidableEq, Repr

/-- Lines 348-375, `Binstar.download`: a conditional GET with
`allow_redirects=False`, `ETag: md5` when `md5` is truthy, allowed statuses
`[302, 304]`.  304 returns `None`; 302 GETs `res.headers["location"]`
(requests header lookup is case-insensitive; the model stores the key
lowercase) with `stream=True` and returns that handle; any other status
raises from `_check_response`.  A 302 without a location header would raise
`KeyError` at line 374. -/
def download (client : Binstar) (env : ReqEnv)
    (login package_name release basename : String) (md5 : Option String) :
    List Action × Except Exc (Option StreamHandle) :=
  let url := client.domain ++ "/download/" ++ login ++ "/" ++ package_name ++ "/"
    ++ release ++ "/" ++ basename
  let hdrs := match md5 with
    | some m => [("ETag", m)]
    | none => []
  let trace1 := [Action.getReq url hdrs false]
  match check_response env.codes env.res [302, 304] with
  | some e => (trace1, Except.error e)
  | none =>
    if env.res.status_code = 304 then (trace1, Except.ok none)
    else if env.res.status_code = 302 then
      match getVal env.res.headers "location" with
      | some loc => (trace1 ++ [Action.streamGet loc], Except.ok (some (StreamHandle.mk loc)))
      | none => (trace1, Except.error (Exc.keyError "location"))
    else (trace1, Except.ok none)

/-- Python truthiness of an optional string argument (`if basename:`):
`None` and the empty string are falsy. -/
def truthy : Option String → Bool
  | none => false
  | some s => !s.isEmpty

/-- Lines 272-278, `Binstar.remove_package`: DELETE the package URL, check
against `[201]`, and return `None` (the bare `return`). -/
def remove_package (client : Binstar) (env : ReqEnv) (username package_name : String) :
    List Action × Except Exc (Option (List (String × String))) :=
  let url := client.domain ++ "/package/" ++ username ++ "/" ++ package_name
  let trace1 := [Action.deleteReq url]
  match check_response env.codes env.res [201] with
  | some e => (trace1, Except.error e)
  | none => (trace1, Except.ok none)

/-- Lines 293-304, `Binstar.remove_release`: DELETE the release URL, check
against `[201]`, and return `None`. -/
def remove_release (client : Binstar) (env : ReqEnv)
    (username package_name version : String) :
    List Action × Except Exc (Option (List (String × String))) :=
  let url := client.domain ++ "/release/" ++ username ++ "/" ++ package_name ++ "/" ++ version
  let trace1 := [Action.deleteReq url]
  match check_response env.codes env.res [201] with
  | some e => (trace1, Except.error e)
  | none => (trace1, Except.ok none)

/-- Lines 120-130, `Binstar.remove_authentication`: DELETE either the named
authentication or the current one, check against `[201]`, and return
`None` (the method body ends without a return). -/
def remove_authentication (client : Binstar) (env : ReqEnv) (auth_name : Option String) :
    List Action × Except Exc (Option (List (String × String))) :=
  let url := if truthy auth_name then
      client.domain ++ "/authentications/name/" ++ auth_name.getD ""
    else client.domain ++ "/authentications"
  let trace1 := [Action.deleteReq url]
  match check_response env.codes env.res [201] with
  | some e => (trace1, Except.error e)
  | none => (trace1, Except.ok none)

/-- Lines 334-345, `Binstar.remove_dist`: pick the URL from a truthy
`basename`, else a truthy `_id`, else raise
`TypeError("method remove_dist expects either 'basename' or '_id'
arguments")` before any request; then DELETE, check against the default
`[200]`, and return `res.json()` (the parsed JSON body). -/
def remove_dist (client : Binstar) (env : ReqEnv)
    (login package_name release : String) (basename _id : Option String) :
    List Action × Except Exc (Option (List (String × String))) :=
  let urlE : Except Exc String :=
    if truthy basename then
      Except.ok (client.domain ++ "/dist/" ++ login ++ "/" ++ package_name ++ "/"
        ++ release ++ "/" ++ basename.getD "")
    else if truthy _id then
      Except.ok (client.domain ++ "/dist/" ++ login ++ "/" ++ package_name ++ "/"
        ++ release ++ "/-/" ++ _id.getD "")
    else
      Except.error (Exc.typeError
        "method remove_dist expects either \x27basename\x27 or \x27_id\x27 arguments")
  match urlE with
  | Except.error e => ([], Except.error e)
  | Except.ok url =>
    let trace1 := [Action.deleteReq url]
    match check_response env.codes env.res [200] with
    | some e => (trace1, Except.error e)
    | none =>
      match env.res.body with
      | some b => (trace1, Except.ok (some b))
      | none => (trace1, Except.error Exc.jsonDecode)

/-! Trace predicates. -/

/-- Whether an action is the storage POST of the transfer phase. -/
def isStoragePost : Action → Bool
  | Action.storagePost _ _ _ => true
  | _ => false

/-- Whether an action is the commit POST. -/
def isCommitPost : Action → Bool
  | Action.commitPost _ _ => true
  | _ => false

/-- Whether an action is the streaming redirect GET of `download`. -/
def isStreamGet : Action → Bool
  | Action.streamGet _ => true
  | _ => false

/-- A trace that performs neither a storage POST nor a commit POST. -/
def noTransfer (trace : List Action) : Bool :=
  trace.all (fun act => !(isStoragePost act || isCommitPost act))

/-! Association-list lemmas about `setKey`. -/

/-- After `d[key] = v`, looking up `key` yields `v`. -/
theorem getVal_setKey_self (l : List (String × FormVal)) (key : String) (v : FormVal) :
    getVal (setKey l key v) key = some v := by
  induction l with
  | nil => simp [setKey, getVal]
  | cons p rest ih =>
    obtain ⟨k, w⟩ := p
    by_cases h : k = key
    · simp [setKey, h, getVal]
    · simp [setKey, h, getVal, ih]

/-- After `d[key] = v`, every other key is bound exactly as before. -/
theorem getVal_setKey_ne (l : List (String × FormVal)) (key k2 : String) (v : FormVal)
    (h : k2 ≠ key) : getVal (setKey l key v) k2 = getVal l k2 := by
  induction l with
  | nil => simp [setKey, getVal, Ne.symm h]
  | cons p rest ih =>
    obtain ⟨k, w⟩ := p
    by_cases hk : k = key
    · subst hk
      simp [setKey, getVal, Ne.symm h]
    · simp [setKey, hk, getVal, ih]

/-- Inverting a successful `hash_phase`: success forces `md5 is None` and
returns exactly the base64 digest and size of `compute_hash`. -/
theorem hash_phase_ok (env : UploadEnv) (a : UploadArgs) (b64 : String) (sz : Nat)
    (h : hash_phase env a = Except.ok (b64, sz)) :
    a.md5 = none ∧ b64 = (compute_hash env.hexFn env.b64Fn a.fd a.size).2.1
      ∧ sz = (compute_hash env.hexFn env.b64Fn a.fd a.size).2.2 := by
  cases hmd5 : a.md5 with
  | none =>
    simp [hash_phase, hmd5] at h
    exact ⟨rfl, (congrArg Prod.fst h).symm, (congrArg Prod.snd h).symm⟩
  | some m => simp [hash_phase, hmd5] at h

/-! Concrete fixtures used by witnesses and counterexamples. -/

/-- A concrete `STATUS_CODES` table fragment. -/
def exCodes : Nat → Option (String × String) := fun s =>
  if s = 418 then some ("Teapot", "Short and stout") else none

/-- A client whose domain is the default one. -/
def exClient : Binstar := Binstar.mk "https://api.anaconda.org"

/-- A four-byte file positioned at the start. -/
def exFd : FileObj := FileObj.mk [1, 2, 3, 4] 0

/-- Digest stubs standing in for the MD5 hex and base64 outputs. -/
def exHexFn : List Nat → String := fun _ => "hexdigest"

/-- See `exHexFn`. -/
def exB64Fn : List Nat → String := fun _ => "b64digest"

/-- A 200 stage response. -/
def exStageRes200 : Response :=
  Response.mk 200 "POST" "https://api.anaconda.org/stage/u/p/r/b.tar.bz2" (some []) [] ""

/-- A 409 stage response whose JSON body carries an `error` field. -/
def exStageRes409 : Response :=
  Response.mk 409 "POST" "https://api.anaconda.org/stage/u/p/r/b.tar.bz2"
    (some [("error", "Distribution already exists")]) [] ""

/-- The parsed stage body: a storage URL, two pre-filled form fields and a
staged distribution id. -/
def exStageObj : StageObj :=
  StageObj.mk "https://s3/x" [("key", FormVal.s "staging/u"), ("policy", FormVal.s "abc")]
    "dist-1"

/-- A 200 commit response with the committed-release JSON body. -/
def exCommitRes200 : Response :=
  Response.mk 200 "POST" "https://api.anaconda.org/commit/u/p/r/b.tar.bz2"
    (some [("id", "release1")]) [] ""

/-- The fully successful upload environment: stage 200, storage 201,
commit 200. -/
def exEnvOk : UploadEnv :=
  UploadEnv.mk exCodes exStageRes200 exStageObj 201 "" exCommitRes200 exHexFn exB64Fn

/-- Stage rejects with 409. -/
def exEnvStage409 : UploadEnv :=
  UploadEnv.mk exCodes exStageRes409 exStageObj 201 "" exCommitRes200 exHexFn exB64Fn

/-- Storage fails with 500, body `"S3-DIAGNOSTIC-BODY-A"`. -/
def exEnvS3FailA : UploadEnv :=
  UploadEnv.mk exCodes exStageRes200 exStageObj 500 "S3-DIAGNOSTIC-BODY-A" exCommitRes200
    exHexFn exB64Fn

/-- Same as `exEnvS3FailA` but with a different storage body. -/
def exEnvS3FailB : UploadEnv :=
  UploadEnv.mk exCodes exStageRes200 exStageObj 500 "S3-DIAGNOSTIC-BODY-B" exCommitRes200
    exHexFn exB64Fn

/-- Upload arguments with no supplied digest or size. -/
def exArgs : UploadArgs :=
  UploadArgs.mk "u" "p" "r" "b.tar.bz2" exFd "conda" "" none none none AttrsArg.pynone
    ["main"]

/-- Upload arguments with a supplied digest and size. -/
def exArgsMd5 : UploadArgs :=
  UploadArgs.mk "u" "p" "r" "b.tar.bz2" exFd "conda" "" (some "c8WnFfyDwvLRiUiWSkvmmw==")
    (some 4) none AttrsArg.pynone ["main"]

/-- Upload arguments whose `attrs` is neither `None` nor a dict. -/
def exArgsBadAttrs : UploadArgs :=
  UploadArgs.mk "u" "p" "r" "b.tar.bz2" exFd "conda" "" none none none
    (AttrsArg.other "list") ["main"]

/-- The form data the successful run sends to storage: the staged fields
followed by the two injected integrity fields. -/
def exFormDataFinal : List (String × FormVal) :=
  [("key", FormVal.s "staging/u"), ("policy", FormVal.s "abc"),
   ("Content-Length", FormVal.n 4), ("Content-MD5", FormVal.s "b64digest")]

/-- A 201 delete response. -/
def exDel201 : ReqEnv :=
  ReqEnv.mk exCodes (Response.mk 201 "DELETE" "https://api.anaconda.org/package/u/p" none [] "")

/-- A 200 delete response with a JSON body. -/
def exDel200 : ReqEnv :=
  ReqEnv.mk exCodes (Response.mk 200 "DELETE"
    "https://api.anaconda.org/dist/u/p/r/b.tar.bz2" (some [("removed", "1")]) [] "")

/-- A 304 download response. -/
def exDl304 : ReqEnv :=
  ReqEnv.mk exCodes (Response.mk 304 "GET"
    "https://api.anaconda.org/download/u/p/r/b.tar.bz2" none [] "")

/-- A 302 download response redirecting to a CDN location. -/
def exDl302 : ReqEnv :=
  ReqEnv.mk exCodes (Response.mk 302 "GET"
    "https://api.anaconda.org/download/u/p/r/b.tar.bz2" none
    [("location", "https://cdn/x")] "")

/-- Replace only the `attrs` argument of an `upload` call. -/
def withAttrs (a : UploadArgs) (x : AttrsArg) : UploadArgs :=
  UploadArgs.mk a.login a.package_name a.release a.basename a.fd a.distribution_type
    a.description a.md5 a.size a.dependencies x a.channels

/-! Claim theorems. -/

/-- C2: whenever `upload` performs a storage POST, the form data it sends
is the staged `form_data` with exactly the keys `Content-Length` and
`Content-MD5` set (to the size and base64 digest produced by the hashing
step); every other key-value pair of the stage response is passed through
unchanged. -/
theorem upload_form_data_frame (client : Binstar) (env : UploadEnv) (a : UploadArgs)
    (u : String) (f : List (String × FormVal)) (b : String)
    (hmem : Action.storagePost u f b ∈ (upload client env a).1) :
    getVal f "Content-MD5"
        = some (FormVal.s (compute_hash env.hexFn env.b64Fn a.fd a.size).2.1)
    ∧ getVal f "Content-Length"
        = some (FormVal.n (compute_hash env.hexFn env.b64Fn a.fd a.size).2.2)
    ∧ ∀ k, k ≠ "Content-Length" → k ≠ "Content-MD5" →
        getVal f k = getVal env.stageObj.form_data k := by
  rcases hca : check_attrs a.attrs with e | attrs
  · simp [upload, hca] at hmem
  · rcases hcr : check_response env.codes env.stageRes [200] with _ | e
    · rcases hhp : hash_phase env a with e | ⟨b64, sz⟩
      · simp [upload, hca, hcr, hhp] at hmem
      · obtain ⟨hmd5, hb64, hsz⟩ := hash_phase_ok env a b64 sz hhp
        have hf : f = setKey (setKey env.stageObj.form_data "Content-Length" (FormVal.n sz))
            "Content-MD5" (FormVal.s b64) := by
          by_cases hst : env.storageStatus = 201
          · rcases hcc : check_response env.codes env.commitRes [200] with _ | e2
            · rcases hcb : env.commitRes.body with _ | bb
              · simp [upload, hca, hcr, hhp, hst, hcc, hcb] at hmem
                exact hmem.2.1
              · simp [upload, hca, hcr, hhp, hst, hcc, hcb] at hmem
                exact hmem.2.1
            · simp [upload, hca, hcr, hhp, hst, hcc] at hmem
              exact hmem.2.1
          · simp [upload, hca, hcr, hhp, hst] at hmem
            exact hmem.2.1
        subst hf
        refine ⟨?_, ?_, ?_⟩
        · rw [getVal_setKey_self, hb64]
        · rw [getVal_setKey_ne _ _ _ _ (by decide), getVal_setKey_self, hsz]
        · intro k hk1 hk2
          rw [getVal_setKey_ne _ _ _ _ hk2, getVal_setKey_ne _ _ _ _ hk1]
    · simp [upload, hca, hcr] at hmem

/-- C2 witness: the successful concrete run sends `exFormDataFinal`, whose
integrity fields are the computed digest and size and whose `policy` field
is the staged one. -/
theorem upload_form_data_frame_witness :
    getVal exFormDataFinal "Content-MD5" = some (FormVal.s "b64digest")
    ∧ getVal exFormDataFinal "Content-Length" = some (FormVal.n 4)
    ∧ getVal exFormDataFinal "policy" = getVal exStageObj.form_data "policy" := by
  have h := upload_form_data_frame exClient exEnvOk exArgs "https://s3/x" exFormDataFinal
    "b.tar.bz2" (by decide)
  exact ⟨h.1, h.2.1, h.2.2 "policy" (by decide) (by decide)⟩

/-- C3: when the stage POST returns a disallowed status, `upload` raises
exactly the typed error `_check_response` builds for that status (the
`Conflict` class for 409) and performs neither the storage POST nor the
commit POST. -/
theorem upload_stage_error_aborts (client : Binstar) (env : UploadEnv) (a : UploadArgs)
    (hattrs : attrsOk a.attrs = true) (hstatus : env.stageRes.status_code ≠ 200) :
    (upload client env a).2 = Except.error (Exc.api
        (errCls_of_status env.stageRes.status_code)
        (response_error_message env.codes env.stageRes) env.stageRes.status_code)
    ∧ noTransfer (upload client env a).1 = true
    ∧ errCls_of_status 409 = ErrCls.Conflict := by
  have hcr : check_response env.codes env.stageRes [200]
      = some (Exc.api (errCls_of_status env.stageRes.status_code)
          (response_error_message env.codes env.stageRes) env.stageRes.status_code) := by
    rw [check_response, if_neg]
    simp [hstatus]
  have key : (upload client env a).2 = Except.error (Exc.api
      (errCls_of_status env.stageRes.status_code)
      (response_error_message env.codes env.stageRes) env.stageRes.status_code)
      ∧ noTransfer (upload client env a).1 = true := by
    rcases ha : a.attrs with _ | d | r
    · exact ⟨by simp [upload, check_attrs, ha, hcr],
        by simp [upload, check_attrs, ha, hcr, noTransfer, isStoragePost, isCommitPost]⟩
    · exact ⟨by simp [upload, check_attrs, ha, hcr],
        by simp [upload, check_attrs, ha, hcr, noTransfer, isStoragePost, isCommitPost]⟩
    · rw [ha] at hattrs
      exact absurd hattrs (by simp [attrsOk])
  exact ⟨key.1, key.2, rfl⟩

/-- C3 witness: stage answers 409 with a JSON `error` field; the raised
error is `Conflict` with the server message and no transfer happens. -/
theorem upload_stage_error_aborts_witness :
    (upload exClient exEnvStage409 exArgs).2
      = Except.error (Exc.api ErrCls.Conflict "Distribution already exists" 409)
    ∧ noTransfer (upload exClient exEnvStage409 exArgs).1 = true := by
  have h := upload_stage_error_aborts exClient exEnvStage409 exArgs rfl (by decide)
  exact ⟨h.1, h.2.1⟩

/-- C9: `upload` rejects an `attrs` argument that is neither `None` nor a
dict with a `TypeError` raised before any HTTP request, and treats
`attrs=None` exactly as the empty dict (the whole call behaves
identically). -/
theorem upload_attrs_validation (client : Binstar) (env : UploadEnv) (a : UploadArgs) :
    (∀ r, a.attrs = AttrsArg.other r →
      upload client env a
        = ([], Except.error (Exc.typeError "argument attrs must be a dictionary")))
    ∧ (a.attrs = AttrsArg.pynone →
      upload client env a = upload client env (withAttrs a (AttrsArg.pydict []))) := by
  constructor
  · intro r hr
    simp [upload, check_attrs, hr]
  · intro hn
    rcases a with ⟨lg, pn, rl, bn, fd, dt, dsc, m5, sz, dps, ats, chs⟩
    have hn2 : ats = AttrsArg.pynone := hn
    subst hn2
    rfl

/-- C9 witness: the rejection at a concrete bad `attrs`, and the
`None`-vs-empty-dict equivalence at a concrete call. -/
theorem upload_attrs_validation_witness :
    upload exClient exEnvOk exArgsBadAttrs
      = ([], Except.error (Exc.typeError "argument attrs must be a dictionary"))
    ∧ upload exClient exEnvOk exArgs
      = upload exClient exEnvOk (withAttrs exArgs (AttrsArg.pydict [])) := by
  exact ⟨(upload_attrs_validation exClient exEnvOk exArgsBadAttrs).1 "list" rfl,
    (upload_attrs_validation exClient exEnvOk exArgs).2 rfl⟩

/-- C1 (code-bug evidence): calling `upload` with a supplied digest
(`md5` not `None`) raises `UnboundLocalError` on the local `b64md5`, which
line 418 reads but which is only ever assigned in the `md5 is None` branch
of line 409: the supplied digest is never injected into the form data and
the storage transfer never begins, contrary to the claimed skip-hashing
fast path. -/
theorem upload_supplied_md5_unbound_local :
    (upload exClient exEnvOk exArgsMd5).2 = Except.error (Exc.unboundLocal "b64md5")
    ∧ noTransfer (upload exClient exEnvOk exArgsMd5).1 = true := by
  exact ⟨rfl, rfl⟩

/-- C7: `remove_dist` with both `basename` and `_id` absent raises the
bad-local-arguments error (`TypeError`) before any HTTP request is made:
the trace of performed requests is empty. -/
theorem remove_dist_missing_args (client : Binstar) (env : ReqEnv)
    (login package_name release : String) :
    remove_dist client env login package_name release none none
      = ([], Except.error (Exc.typeError
          "method remove_dist expects either \x27basename\x27 or \x27_id\x27 arguments")) :=
  rfl

/-- C8 counterexample: `remove_dist` on an allowed 200 response returns the
parsed JSON body of the delete response, not `None` — refuting the claim
that every delete operation returns `None`. -/
theorem remove_dist_returns_json_body :
    (remove_dist exClient (ReqEnv.mk exCodes
        (Response.mk 200 "DELETE" "https://api.anaconda.org/dist/u/p/r/b.tar.bz2"
          (some [("removed", "1")]) [] ""))
        "u" "p" "r" (some "b.tar.bz2") none).2
      = Except.ok (some [("removed", "1")])
    ∧ Except.ok (some [("removed", "1")])
        ≠ (Except.ok none : Except Exc (Option (List (String × String)))) := by
  exact ⟨rfl, fun hcontra => Option.noConfusion (Except.ok.inj hcontra)⟩

/-- C4 counterexample: when the storage POST fails, the raised error is the
fixed `BinstarError("Error uploading package", status)` and does not carry
the storage response body — two runs that differ only in the storage body
text produce identical traces and identical errors (the body is only
logged). -/
theorem upload_storage_error_drops_body :
    upload exClient exEnvS3FailA exArgs = upload exClient exEnvS3FailB exArgs
    ∧ (upload exClient exEnvS3FailA exArgs).2
        = Except.error (Exc.api ErrCls.BinstarError "Error uploading package" 500)
    ∧ exEnvS3FailA.storageText ≠ exEnvS3FailB.storageText := by
  exact ⟨rfl, rfl, by decide⟩

/-- C5 counterexample: the synthesized message of `_check_response` is
`"%s: %s ([%s] %s -> %s)"`, with no space before the colon, so for a
response whose body is not JSON the raised message differs from the
claimed template `"<short> : <long> ([METHOD] URL -> STATUS)"` at the
concrete status 418. -/
theorem check_response_message_spacing :
    check_response exCodes (Response.mk 418 "GET" "https://api.anaconda.org/user" none [] "")
        [200]
      = some (Exc.api ErrCls.BinstarError
          "Teapot: Short and stout ([GET] https://api.anaconda.org/user -> 418)" 418)
    ∧ "Teapot: Short and stout ([GET] https://api.anaconda.org/user -> 418)"
        ≠ "Teapot : Short and stout ([GET] https://api.anaconda.org/user -> 418)" := by
  exact ⟨rfl, by decide⟩

/-- C10: the constructor strips exactly one trailing slash from the domain,
so a domain given with one trailing slash yields the same stored
`self.domain` as the bare domain — and hence identical request URLs —
while a domain with two trailing slashes keeps one. -/
theorem init_domain_strips_one_trailing_slash (d : String)
    (h : d.data.getLast? ≠ some (Char.ofNat 47)) :
    Binstar.ofDomain (d ++ "/") = Binstar.ofDomain d
    ∧ init_domain d = d
    ∧ init_domain (d ++ "/") = d
    ∧ init_domain (d ++ "//") = d ++ "/" := by
  have hdata : (d ++ "/").data = d.data ++ [Char.ofNat 47] := String.data_append d "/"
  have hdata2 : (d ++ "//").data = (d.data ++ [Char.ofNat 47]) ++ [Char.ofNat 47] := by
    rw [String.data_append d "//"]
    show d.data ++ [Char.ofNat 47, Char.ofNat 47] = _
    rw [List.append_assoc]
    rfl
  have h0 : init_domain d = d := by
    rw [init_domain, if_neg h]
  have h1 : init_domain (d ++ "/") = d := by
    have hc : (d ++ "/").data.getLast? = some (Char.ofNat 47) := by
      rw [hdata]; exact List.getLast?_concat _
    rw [init_domain, if_pos hc, hdata, List.dropLast_concat]
  have h2 : init_domain (d ++ "//") = d ++ "/" := by
    have hc : (d ++ "//").data.getLast? = some (Char.ofNat 47) := by
      rw [hdata2]; exact List.getLast?_concat _
    rw [init_domain, if_pos hc, hdata2, List.dropLast_concat, ← hdata]
  refine ⟨?_, h0, h1, h2⟩
  rw [Binstar.ofDomain, Binstar.ofDomain, h0, h1]

/-- C10 witness at the default domain. -/
theorem init_domain_strips_one_trailing_slash_witness :
    Binstar.ofDomain ("https://api.anaconda.org" ++ "/")
      = Binstar.ofDomain "https://api.anaconda.org" :=
  (init_domain_strips_one_trailing_slash "https://api.anaconda.org" (by decide)).1

/-- C4 (amended): with a successful stage and the hashing path taken, a
storage status other than 201 makes `upload` raise the fixed generic
`BinstarError("Error uploading package", status)` — the storage body is
only logged, not carried in the error — and the commit POST is never
attempted; a storage status of exactly 201 makes the commit POST run. -/
theorem upload_storage_status_gate (client : Binstar) (env : UploadEnv) (a : UploadArgs)
    (hattrs : attrsOk a.attrs = true) (hstage : env.stageRes.status_code = 200)
    (hmd5 : a.md5 = none) :
    (env.storageStatus ≠ 201 →
      (upload client env a).2 = Except.error
        (Exc.api ErrCls.BinstarError "Error uploading package" env.storageStatus)
      ∧ (upload client env a).1.all (fun act => !isCommitPost act) = true)
    ∧ (env.storageStatus = 201 →
      Action.commitPost (client.domain ++ "/commit/" ++ a.login ++ "/" ++ a.package_name
          ++ "/" ++ a.release ++ "/" ++ a.basename) env.stageObj.dist_id
        ∈ (upload client env a).1) := by
  obtain ⟨attrs, hca⟩ : ∃ x, check_attrs a.attrs = Except.ok x := by
    rcases ha : a.attrs with _ | d | r
    · exact ⟨[], rfl⟩
    · exact ⟨d, rfl⟩
    · rw [ha] at hattrs
      exact absurd hattrs (by simp [attrsOk])
  have hcr : check_response env.codes env.stageRes [200] = none := by
    rw [check_response, if_pos]
    simp [hstage]
  have hhp : hash_phase env a = Except.ok
      ((compute_hash env.hexFn env.b64Fn a.fd a.size).2.1,
       (compute_hash env.hexFn env.b64Fn a.fd a.size).2.2) := by
    simp [hash_phase, hmd5]
  constructor
  · intro hst
    exact ⟨by simp [upload, hca, hcr, hhp, hst],
      by simp [upload, hca, hcr, hhp, hst, isCommitPost]⟩
  · intro hst
    rcases hcc : check_response env.codes env.commitRes [200] with _ | e2
    · rcases hcb : env.commitRes.body with _ | bb
      · simp [upload, hca, hcr, hhp, hst, hcc, hcb]
      · simp [upload, hca, hcr, hhp, hst, hcc, hcb]
    · simp [upload, hca, hcr, hhp, hst, hcc]

/-- C4 witness: storage fails with 500 at one concrete call (generic error,
no commit), storage returns 201 at another (the commit POST runs). -/
theorem upload_storage_status_gate_witness :
    (upload exClient exEnvS3FailA exArgs).2 = Except.error
      (Exc.api ErrCls.BinstarError "Error uploading package" 500)
    ∧ (upload exClient exEnvS3FailA exArgs).1.all (fun act => !isCommitPost act) = true
    ∧ Action.commitPost "https://api.anaconda.org/commit/u/p/r/b.tar.bz2" "dist-1"
        ∈ (upload exClient exEnvOk exArgs).1 := by
  have h1 := (upload_storage_status_gate exClient exEnvS3FailA exArgs rfl rfl rfl).1
    (by decide)
  have h2 := (upload_storage_status_gate exClient exEnvOk exArgs rfl rfl rfl).2 rfl
  exact ⟨h1.1, h1.2, h2⟩

/-- C5 (amended): `_check_response` raises nothing on an allowed status and
exactly one typed error otherwise, classified `Unauthorized` for 401,
`NotFound` for 404, `Conflict` for 409, `ServerError` for statuses at
least 500 and the generic `BinstarError` for every other status; the
message is the server-provided `error` field when the body parses as JSON
and carries that field, and otherwise the synthesized
`"<short>: <long> ([METHOD] URL -> STATUS)"` string (no space before the
colon). -/
theorem check_response_spec (codes : Nat → Option (String × String)) (res : Response)
    (allowed : List Nat) :
    (res.status_code ∈ allowed → check_response codes res allowed = none)
    ∧ (res.status_code ∉ allowed → check_response codes res allowed
        = some (Exc.api (errCls_of_status res.status_code)
            (response_error_message codes res) res.status_code))
    ∧ errCls_of_status 401 = ErrCls.Unauthorized
    ∧ errCls_of_status 404 = ErrCls.NotFound
    ∧ errCls_of_status 409 = ErrCls.Conflict
    ∧ (∀ s, 500 ≤ s → errCls_of_status s = ErrCls.ServerError)
    ∧ (∀ s, s ≠ 401 → s ≠ 404 → s ≠ 409 → s < 500 → errCls_of_status s = ErrCls.BinstarError)
    ∧ (∀ fields m, res.body = some fields → getVal fields "error" = some m →
        response_error_message codes res = m)
    ∧ (∀ sh lg, res.body = none → codes res.status_code = some (sh, lg) →
        response_error_message codes res
          = sh ++ ": " ++ lg ++ " ([" ++ res.method ++ "] " ++ res.url ++ " -> "
            ++ toString res.status_code ++ ")") := by
  refine ⟨?_, ?_, rfl, rfl, rfl, ?_, ?_, ?_, ?_⟩
  · intro hmem
    rw [check_response, if_pos hmem]
  · intro hmem
    rw [check_response, if_neg hmem]
  · intro s hs
    rw [errCls_of_status, if_neg (by omega), if_neg (by omega), if_neg (by omega), if_pos hs]
  · intro s h1 h2 h3 h4
    rw [errCls_of_status, if_neg h1, if_neg h2, if_neg h3, if_neg (by omega)]
  · intro fields m hb hg
    simp [response_error_message, hb, hg]
  · intro sh lg hb hc
    simp [response_error_message, hb, synth_message, hc]

/-- C5 witness: the error raised at the disallowed concrete status 418. -/
theorem check_response_spec_witness :
    check_response exCodes (Response.mk 418 "GET" "https://api.anaconda.org/user" none [] "")
        [200]
      = some (Exc.api ErrCls.BinstarError
          "Teapot: Short and stout ([GET] https://api.anaconda.org/user -> 418)" 418) :=
  (check_response_spec exCodes
    (Response.mk 418 "GET" "https://api.anaconda.org/user" none [] "") [200]).2.1 (by decide)

/-- C6: `download` sends the supplied digest as the `ETag` request header
on the initial conditional GET (issued with redirects disabled), returns
`None` on 304 without performing any streaming redirect GET, follows the
`location` header with a streaming GET on 302 and returns that handle, and
raises the typed `_check_response` error on any other status. -/
theorem download_spec (client : Binstar) (env : ReqEnv)
    (login package_name release basename : String) (md5 : Option String) :
    (∀ m, md5 = some m →
      (download client env login package_name release basename md5).1.head?
        = some (Action.getReq (client.domain ++ "/download/" ++ login ++ "/" ++ package_name
            ++ "/" ++ release ++ "/" ++ basename) [("ETag", m)] false))
    ∧ (env.res.status_code = 304 →
      (download client env login package_name release basename md5).2 = Except.ok none
      ∧ (download client env login package_name release basename md5).1.all
          (fun act => !isStreamGet act) = true)
    ∧ (∀ loc, env.res.status_code = 302 → getVal env.res.headers "location" = some loc →
      (download client env login package_name release basename md5).2
        = Except.ok (some (StreamHandle.mk loc))
      ∧ Action.streamGet loc
          ∈ (download client env login package_name release basename md5).1)
    ∧ (env.res.status_code ∉ [302, 304] →
      (download client env login package_name release basename md5).2
        = Except.error (Exc.api (errCls_of_status env.res.status_code)
            (response_error_message env.codes env.res) env.res.status_code)) := by
  refine ⟨?_, ?_, ?_, ?_⟩
  · intro m hm
    subst hm
    rcases hcr : check_response env.codes env.res [302, 304] with _ | e
    · by_cases h304 : env.res.status_code = 304
      · simp [download, hcr, h304]
      · by_cases h302 : env.res.status_code = 302
        · rcases hloc : getVal env.res.headers "location" with _ | loc
          · simp [download, hcr, h304, h302, hloc]
          · simp [download, hcr, h304, h302, hloc]
        · simp [download, hcr, h304, h302]
    · simp [download, hcr]
  · intro h304
    have hcr : check_response env.codes env.res [302, 304] = none := by
      rw [check_response, if_pos]
      simp [h304]
    exact ⟨by simp [download, hcr, h304], by simp [download, hcr, h304, isStreamGet]⟩
  · intro loc h302 hloc
    have hcr : check_response env.codes env.res [302, 304] = none := by
      rw [check_response, if_pos]
      simp [h302]
    constructor
    · simp [download, hcr, h302, hloc]
    · simp [download, hcr, h302, hloc]
  · intro hnmem
    have hcr : check_response env.codes env.res [302, 304]
        = some (Exc.api (errCls_of_status env.res.status_code)
            (response_error_message env.codes env.res) env.res.status_code) := by
      rw [check_response, if_neg hnmem]
    simp [download, hcr]

/-- C6 witness: a conditional GET with `md5="abc123"` answered 304 returns
`None` with the `ETag` header sent, and a 302 with a `location` header
returns the streaming handle for that location. -/
theorem download_spec_witness :
    (download exClient exDl304 "u" "p" "r" "b.tar.bz2" (some "abc123")).2 = Except.ok none
    ∧ (download exClient exDl304 "u" "p" "r" "b.tar.bz2" (some "abc123")).1.head?
        = some (Action.getReq "https://api.anaconda.org/download/u/p/r/b.tar.bz2"
            [("ETag", "abc123")] false)
    ∧ (download exClient exDl302 "u" "p" "r" "b.tar.bz2" none).2
        = Except.ok (some (StreamHandle.mk "https://cdn/x")) := by
  have h1 := download_spec exClient exDl304 "u" "p" "r" "b.tar.bz2" (some "abc123")
  have h2 := download_spec exClient exDl302 "u" "p" "r" "b.tar.bz2" none
  exact ⟨(h1.2.1 rfl).1, h1.1 "abc123" rfl, (h2.2.2.1 "https://cdn/x" rfl rfl).1⟩

/-- C8 (amended): `remove_package`, `remove_release` and
`remove_authentication` return `None` on their allowed status 201 — their
only success signal is the status code — while `remove_dist` checks
against the default allowed status 200 and returns the parsed JSON body of
the delete response rather than `None`. -/
theorem delete_return_values (client : Binstar) (env : ReqEnv)
    (username package_name version : String) (auth_name basename _id : Option String) :
    (env.res.status_code = 201 →
      (remove_package client env username package_name).2 = Except.ok none
      ∧ (remove_release client env username package_name version).2 = Except.ok none
      ∧ (remove_authentication client env auth_name).2 = Except.ok none)
    ∧ (∀ fields, env.res.status_code = 200 → env.res.body = some fields →
        truthy basename = true →
        (remove_dist client env username package_name version basename _id).2
          = Except.ok (some fields)) := by
  constructor
  · intro h201
    have hcr : check_response env.codes env.res [201] = none := by
      rw [check_response, if_pos]
      simp [h201]
    exact ⟨by simp [remove_package, hcr], by simp [remove_release, hcr],
      by simp [remove_authentication, hcr]⟩
  · intro fields h200 hbody htr
    have hcr : check_response env.codes env.res [200] = none := by
      rw [check_response, if_pos]
      simp [h200]
    simp [remove_dist, htr, hcr, hbody]

/-- C8 witness: a 201 delete returns `None` from `remove_package`; a 200
delete with a JSON body returns that body from `remove_dist`. -/
theorem delete_return_values_witness :
    (remove_package exClient exDel201 "u" "p").2 = Except.ok none
    ∧ (remove_dist exClient exDel200 "u" "p" "r" (some "b.tar.bz2") none).2
        = Except.ok (some [("removed", "1")]) := by
  have h1 := (delete_return_values exClient exDel201 "u" "p" "r" none none none).1 rfl
  have h2 := (delete_return_values exClient exDel200 "u" "p" "r" none (some "b.tar.bz2")
    none).2 [("removed", "1")] rfl rfl rfl
  exact ⟨h1.1, h2⟩

end BinstarClient
